import Mathlib

/-!
Shallow embedding of the LLDP receiver (files `server.py` and `tlvs.py`).

Byte buffers are modelled as `List Nat` whose elements are byte values; every
place where the source interprets a byte numerically (struct formats `B`, `H`,
`l`) applies `% 256` so the definitions are total on all of `Nat`.

Exceptions raised by the Python code are modelled by the `PyError` type, one
constructor per Python exception class that the code can actually raise:
- `attributeError`: `TLV.validate_length` fails its bound check and then
  builds its message from the undefined attribute `self.MINIMUM_LENGTH`, so
  the exception that escapes is an `AttributeError`, not the intended
  `ValueError`;
- `valueError`: the in-`decode` bound re-checks and the ManagementAddress
  reserved-interface check (`raise ValueError(...)` with a well-formed
  message);
- `structError`: `struct.unpack` called with a buffer whose size differs from
  the format size, or with a malformed format string;
- `keyError`: a `dict[...]` lookup on a missing key;
- `unicodeDecodeError`: `bytes.decode("utf-8")` on invalid UTF-8;
- `addressValueError`: `ipaddress.IPv4Address`/`IPv6Address` on a packed
  byte string of the wrong size.
-/

inductive PyError where
  | attributeError
  | valueError
  | structError
  | keyError
  | unicodeDecodeError
  | addressValueError
  deriving DecidableEq, Repr

/-- Python slicing `l[a:b]` for `0 <= a <= b`. -/
def pySlice (l : List Nat) (a b : Nat) : List Nat :=
  (l.drop a).take (b - a)

/-- Lowercase hexadecimal digit, as produced by `bytes.hex()`. -/
def hexDigitChar (n : Nat) : Char :=
  if n < 10 then Char.ofNat (48 + n) else Char.ofNat (87 + n)

/-- Two lowercase hex digits of one byte, as in `bytes.hex()`. -/
def byteHex (b : Nat) : String :=
  String.mk [hexDigitChar (b % 256 / 16), hexDigitChar (b % 16)]

/-- Python `bytes.hex()`: the bytes as a run of lowercase hex digit pairs. -/
def plainHex (bs : List Nat) : String :=
  String.join (bs.map byteHex)

/-- Python `bytes.hex(":")`: hex digit pairs separated by colons. -/
def colonHex (bs : List Nat) : String :=
  String.intercalate (":") (bs.map byteHex)

/-- Big-endian 32-bit read of four bytes, as in struct format `!l` before
sign adjustment. -/
def be32 (a b c d : Nat) : Nat :=
  (a % 256) * 16777216 + (b % 256) * 65536 + (c % 256) * 256 + d % 256

/-- Two-complement reinterpretation of a 32-bit value: struct format `l`
is a signed 32-bit integer. -/
def signed32 (v : Nat) : Int :=
  if v < 2147483648 then (v : Int) else (v : Int) - 4294967296

/-- Continuation byte test for UTF-8 (`0x80..0xBF`). -/
def utf8Cont (c : Nat) : Bool :=
  decide (128 ≤ c ∧ c ≤ 191)

/-- Validity of a byte list under strict UTF-8 decoding, the check performed
by `bytes.decode("utf-8")`; rejects overlong forms and surrogates. -/
def utf8Valid : List Nat → Bool
  | [] => true
  | b :: rest =>
    if b < 128 then utf8Valid rest
    else if b < 194 then false
    else if b < 224 then
      match rest with
      | c1 :: r => utf8Cont c1 && utf8Valid r
      | [] => false
    else if b < 240 then
      match rest with
      | c1 :: c2 :: r =>
        utf8Cont c1 && utf8Cont c2 &&
        !(b == 224 && c1 < 160) && !(b == 237 && 160 ≤ c1) && utf8Valid r
      | _ => false
    else if b < 245 then
      match rest with
      | c1 :: c2 :: c3 :: r =>
        utf8Cont c1 && utf8Cont c2 && utf8Cont c3 &&
        !(b == 240 && c1 < 144) && !(b == 244 && 144 ≤ c1) && utf8Valid r
      | _ => false
    else false

/-- Number of binary digits of `x`, computed with a structural fuel argument
so that it evaluates inside the kernel; `bitLenAux f x` is the digit count
whenever `x ≤ f` (each step halves `x`, so fuel `x` is always enough). -/
def bitLenAux : Nat → Nat → Nat
  | _, 0 => 0
  | 0, _ + 1 => 0
  | f + 1, x + 1 => bitLenAux f ((x + 1) / 2) + 1

/-- Number of binary digits of `x` (0 has none). -/
def bitLen (x : Nat) : Nat :=
  bitLenAux x x

/-- Length of the Python format `bin(x)` without its `0b` prefix: `bin(0)`
is the single digit `0`. -/
def pyBinDigits (x : Nat) : Nat :=
  if x = 0 then 1 else bitLen x

/-- ChassisID subtype table (`tlvs.py`, `ChassisID.decode`). -/
def chassisSubtypeLabel (n : Nat) : Option String :=
  if n = 0 then some ("Reserved")
  else if n = 1 then some ("Chassis component")
  else if n = 2 then some ("Interface Alias")
  else if n = 3 then some ("Port component")
  else if n = 4 then some ("MAC address")
  else if n = 5 then some ("Network address")
  else if n = 6 then some ("Interface name")
  else if n = 7 then some ("Locally assigned")
  else none

/-- PortID subtype table (`tlvs.py`, `PortID.decode`). -/
def portSubtypeLabel (n : Nat) : Option String :=
  if n = 0 then some ("Reserved")
  else if n = 1 then some ("Interface alias")
  else if n = 2 then some ("Port component")
  else if n = 3 then some ("MAC address")
  else if n = 4 then some ("Network address")
  else if n = 5 then some ("Interface name")
  else if n = 6 then some ("Agent circuit ID")
  else if n = 7 then some ("Locally assigned")
  else none

/-- ManagementAddress interface subtype table (`tlvs.py`). -/
def ifaceSubtypeLabel (n : Nat) : Option String :=
  if n = 0 then some ("Reserved")
  else if n = 1 then some ("Unknown")
  else if n = 2 then some ("ifIndex")
  else if n = 3 then some ("system port number")
  else none

/-- CAPABILITIES_BITMAP of `SystemCapabilities`; only ever applied to bit
positions 0 through 7 (position 8 raises a KeyError, modelled separately). -/
def capabilityLabel (n : Nat) : String :=
  if n = 0 then ("Other")
  else if n = 1 then ("Repeater")
  else if n = 2 then ("Bridge")
  else if n = 3 then ("WLAN access point")
  else if n = 4 then ("Router")
  else if n = 5 then ("Telephone")
  else if n = 6 then ("DOCSIS cable device")
  else ("Station only")

/-- Management address object as held in the result dict: `IPv4Address` for
subtype 1, `IPv6Address` for subtype 2, the raw byte string otherwise. The
final `str(...)` rendering is presentation only and injective per case, so
the underlying bytes are kept. -/
inductive MgmtAddr where
  | ipv4 (bs : List Nat)
  | ipv6 (bs : List Nat)
  | raw (bs : List Nat)
  deriving DecidableEq, Repr

/-- Result dict of `ManagementAddress.decode`. The source binds `oid_string`
to the whole `unpack` tuple (it omits `[0]`), which only affects its printed
form; the bytes inside are kept here. -/
structure MgmtRecord where
  address_string_length : Nat
  address_subtype : Nat
  management_address : MgmtAddr
  interface_subtype : String
  interface_number : Int
  oid_length : Nat
  oid_string : Option (List Nat)
  deriving DecidableEq, Repr

/-- Decoded record of one TLV, one case per decoder class in `tlvs.py`. Text
fields are kept as their (UTF-8-valid) bytes; `systemCapabilities` carries
the two label-to-boolean dicts in insertion order (bit positions 0..7). -/
inductive DecodedTlv where
  | endOfLldpdu
  | chassisId (chassis_id_subtype : String) (chassis_id : String)
  | portId (port_id_subtype : String) (port_id : List Nat)
  | timeToLive (seconds : Nat)
  | portDescription (text : List Nat)
  | systemName (text : List Nat)
  | systemDescription (text : List Nat)
  | systemCapabilities (system_capabilities enabled_capabilities : List (String × Bool))
  | managementAddress (record : MgmtRecord)
  | orgSpecific (oui : String) (org_subcode : Nat) (tlv_raw_value : List Nat)
  | notImplemented (tlv_code tlv_length : Nat) (tlv_value : List Nat)
  deriving DecidableEq, Repr

/-- TLV object fields as stored by `TLV.__init__` (`type_code`, `length`,
`value`), kept verbatim. -/
structure TlvRec where
  type_code : Nat
  length : Nat
  value : List Nat
  deriving DecidableEq, Repr

/-- Bound check of `TLV.validate_length`, parametrised by the `MIN_LENGTH`
and `MAX_LENGTH` attributes of the class on which it is invoked. When the
check fails, building the error message reads the undefined attribute
`self.MINIMUM_LENGTH`, so an `AttributeError` escapes instead of the
intended `ValueError`. -/
def TLV.validate_length (minL maxL : Nat) (value : List Nat) : Except PyError Unit :=
  if value.length < minL ∨ value.length > maxL then .error .attributeError
  else .ok ()

/-- Construction `TLV(type_code, length, value)` with the base bounds
`MIN_LENGTH = 0`, `MAX_LENGTH = 511`: stores the three fields verbatim after
`validate_length`. -/
def TLV.init (type_code length : Nat) (value : List Nat) : Except PyError TlvRec :=
  match TLV.validate_length 0 511 value with
  | .error e => .error e
  | .ok _ => .ok ⟨type_code, length, value⟩

/-- Decoder of `EndOfLLDPDU` (bounds 0..0): constructor bound check with the
subclass attributes, then the in-method re-check (same bounds, never
reached), then the empty result. -/
def EndOfLLDPDU.decode (_code _len : Nat) (value : List Nat) : Except PyError DecodedTlv :=
  match TLV.validate_length 0 0 value with
  | .error e => .error e
  | .ok _ =>
    if value.length < 0 ∨ value.length > 0 then .error .valueError
    else .ok .endOfLldpdu

/-- Decoder of `ChassisID` (bounds 1..256). The fixed format `"!B6s"` needs a
buffer of exactly 7 bytes, whatever the bound check admitted. A subtype
outside the table takes a branch that immediately indexes
`subtypes[chassis_id_subtype]`, the very table the guard just found the
subtype absent from, so that branch raises a KeyError. -/
def ChassisID.decode (_code _len : Nat) (value : List Nat) : Except PyError DecodedTlv :=
  match TLV.validate_length 1 256 value with
  | .error e => .error e
  | .ok _ =>
    if value.length < 1 ∨ value.length > 256 then .error .valueError
    else
      match value with
      | [st, m1, m2, m3, m4, m5, m6] =>
        let sub := st % 256
        match chassisSubtypeLabel sub with
        | none => .error .keyError
        | some lbl =>
          .ok (.chassisId lbl
            (if sub = 4 then colonHex [m1, m2, m3, m4, m5, m6]
             else plainHex [m1, m2, m3, m4, m5, m6]))
      | _ => .error .structError

/-- Decoder of `PortID` (bounds 1..255). The format `f"!B{len(value)-1}s"`
always matches the buffer size here. The out-of-table subtype branch has the
same missing-key lookup as `ChassisID`; in the good branch the port id bytes
go through `.decode("utf-8")`. -/
def PortID.decode (_code _len : Nat) (value : List Nat) : Except PyError DecodedTlv :=
  match TLV.validate_length 1 255 value with
  | .error e => .error e
  | .ok _ =>
    if value.length < 1 ∨ value.length > 255 then .error .valueError
    else
      let sub := value.headD 0 % 256
      let pid := value.tail
      match portSubtypeLabel sub with
      | none => .error .keyError
      | some lbl =>
        if utf8Valid pid then .ok (.portId lbl pid) else .error .unicodeDecodeError

/-- Decoder of `TimeToLive` (bounds 2..2): one big-endian 16-bit read. -/
def TimeToLive.decode (_code _len : Nat) (value : List Nat) : Except PyError DecodedTlv :=
  match TLV.validate_length 2 2 value with
  | .error e => .error e
  | .ok _ =>
    if value.length < 2 ∨ value.length > 2 then .error .valueError
    else
      match value with
      | [a, b] => .ok (.timeToLive ((a % 256) * 256 + b % 256))
      | _ => .error .structError

/-- Decoder of `PortDescription` (bounds 0..255). The format
`f"!{self.length}s"` uses the DECLARED length, so the unpack fails unless
the declared length equals the actual byte count. -/
def PortDescription.decode (_code len : Nat) (value : List Nat) : Except PyError DecodedTlv :=
  match TLV.validate_length 0 255 value with
  | .error e => .error e
  | .ok _ =>
    if value.length < 0 ∨ value.length > 255 then .error .valueError
    else if value.length ≠ len then .error .structError
    else if utf8Valid value then .ok (.portDescription value)
    else .error .unicodeDecodeError

/-- Decoder of `SystemName` (bounds 0..255), same shape as
`PortDescription`. -/
def SystemName.decode (_code len : Nat) (value : List Nat) : Except PyError DecodedTlv :=
  match TLV.validate_length 0 255 value with
  | .error e => .error e
  | .ok _ =>
    if value.length < 0 ∨ value.length > 255 then .error .valueError
    else if value.length ≠ len then .error .structError
    else if utf8Valid value then .ok (.systemName value)
    else .error .unicodeDecodeError

/-- Decoder of `SystemDescription` (bounds 0..255), same shape as
`PortDescription`. -/
def SystemDescription.decode (_code len : Nat) (value : List Nat) : Except PyError DecodedTlv :=
  match TLV.validate_length 0 255 value with
  | .error e => .error e
  | .ok _ =>
    if value.length < 0 ∨ value.length > 255 then .error .valueError
    else if value.length ≠ len then .error .structError
    else if utf8Valid value then .ok (.systemDescription value)
    else .error .unicodeDecodeError

/-- Decoder of `SystemCapabilities` (bounds 4..4): two big-endian 16-bit
bitmaps. The loop iterates over `zip` of the two reversed digit strings of
`f"{x:#010b}"[2:]`, which hold `max 8 (pyBinDigits x)` digits each, least
significant bit first; `zip` truncates to the shorter string, and the
`enumerate` index reaches 8 exactly when both strings have 9 or more digits
(both bitmaps at least 256), at which point `CAPABILITIES_BITMAP[8]` is a
missing key. Otherwise the booleans of bit positions 0..7 are recorded under
their table labels in index order. -/
def SystemCapabilities.decode (_code _len : Nat) (value : List Nat) : Except PyError DecodedTlv :=
  match TLV.validate_length 4 4 value with
  | .error e => .error e
  | .ok _ =>
    if value.length < 4 ∨ value.length > 4 then .error .valueError
    else
      match value with
      | [a, b, c, d] =>
        let s := (a % 256) * 256 + b % 256
        let en := (c % 256) * 256 + d % 256
        if 8 < min (max 8 (pyBinDigits s)) (max 8 (pyBinDigits en)) then .error .keyError
        else .ok (.systemCapabilities
          ((List.range 8).map (fun i => (capabilityLabel i, s.testBit i)))
          ((List.range 8).map (fun i => (capabilityLabel i, en.testBit i))))
      | _ => .error .structError

/-- Decoder of `ManagementAddress` (bounds 9..167), following the source
line by line: address-string length byte `n`; `unpack(f"!B{n-1}s")` on
`value[1:n+1]` (malformed format when `n = 0`, size mismatch when the slice
is short); `IPv4Address`/`IPv6Address` construction for address subtypes 1
and 2 (wrong packed size raises); `unpack("!Bl", value[n+1:n+6])` reading
the interface subtype and a SIGNED big-endian 32-bit interface number; the
reserved-subtype check `interface_subtype == 0 and interface > 0` raising a
ValueError; the interface subtype table lookup (missing key for subtypes
above 3); the OID length byte and, when nonzero, the OID bytes. -/
def ManagementAddress.decode (_code _len : Nat) (value : List Nat) : Except PyError DecodedTlv :=
  match TLV.validate_length 9 167 value with
  | .error e => .error e
  | .ok _ =>
    if value.length < 9 ∨ value.length > 167 then .error .valueError
    else
      let n := value.headD 0 % 256
      if n = 0 then .error .structError
      else
        let addrField := pySlice value 1 (n + 1)
        if addrField.length ≠ n then .error .structError
        else
          let mgmt_addr_subtype := addrField.headD 0 % 256
          let mgmt_addr := addrField.tail
          if mgmt_addr_subtype = 1 ∧ mgmt_addr.length ≠ 4 then .error .addressValueError
          else if mgmt_addr_subtype = 2 ∧ mgmt_addr.length ≠ 16 then .error .addressValueError
          else
            let addrObj : MgmtAddr :=
              if mgmt_addr_subtype = 1 then .ipv4 mgmt_addr
              else if mgmt_addr_subtype = 2 then .ipv6 mgmt_addr
              else .raw mgmt_addr
            match pySlice value (n + 1) (n + 6) with
            | [isub, i1, i2, i3, i4] =>
              let iface_sub := isub % 256
              let iface_num : Int := signed32 (be32 i1 i2 i3 i4)
              if iface_sub = 0 ∧ 0 < iface_num then .error .valueError
              else
                match ifaceSubtypeLabel iface_sub with
                | none => .error .keyError
                | some lbl =>
                  match pySlice value (n + 6) (n + 7) with
                  | [ob] =>
                    let m := ob % 256
                    if m = 0 then
                      .ok (.managementAddress ⟨n, mgmt_addr_subtype, addrObj, lbl, iface_num, m, none⟩)
                    else
                      let oidBytes := pySlice value (n + 7) (n + 7 + m)
                      if oidBytes.length ≠ m then .error .structError
                      else .ok (.managementAddress ⟨n, mgmt_addr_subtype, addrObj, lbl, iface_num, m, some oidBytes⟩)
                  | _ => .error .structError
            | _ => .error .structError

/-- Decoder of `OrgSpecificTLV` (bounds 4..511): `unpack("!3sB", value[:4])`
(the slice holds exactly 4 bytes once the bound check passed), OUI as
colon-separated hex, then the remaining bytes verbatim. -/
def OrgSpecificTLV.decode (_code _len : Nat) (value : List Nat) : Except PyError DecodedTlv :=
  match TLV.validate_length 4 511 value with
  | .error e => .error e
  | .ok _ =>
    if value.length < 4 ∨ value.length > 511 then .error .valueError
    else
      match value with
      | o1 :: o2 :: o3 :: sb :: rest =>
        .ok (.orgSpecific (colonHex [o1, o2, o3]) (sb % 256) rest)
      | _ => .error .structError

/-- Fallback decoder `TLVNotImplemented` for codes outside the registry:
base-class bound check at construction (no subclass bounds), then the raw
type code, declared length and raw bytes, verbatim. -/
def TLVNotImplemented.decode (code len : Nat) (value : List Nat) : Except PyError DecodedTlv :=
  match TLV.validate_length 0 511 value with
  | .error e => .error e
  | .ok _ => .ok (.notImplemented code len value)

/-- Registry dict `TYPE_CODES` at the bottom of `tlvs.py`. -/
def TYPE_CODES (code : Nat) : Option (Nat → Nat → List Nat → Except PyError DecodedTlv) :=
  if code = 0 then some EndOfLLDPDU.decode
  else if code = 1 then some ChassisID.decode
  else if code = 2 then some PortID.decode
  else if code = 3 then some TimeToLive.decode
  else if code = 4 then some PortDescription.decode
  else if code = 5 then some SystemName.decode
  else if code = 6 then some SystemDescription.decode
  else if code = 7 then some SystemCapabilities.decode
  else if code = 8 then some ManagementAddress.decode
  else if code = 127 then some OrgSpecificTLV.decode
  else none

/-- Dispatch `TLV(code, length, value).decode()` as invoked by the sequencer:
base-class construction first, then the `TYPE_CODES` lookup; a missing code
routes to `TLVNotImplemented`. The `if not tlv_object` arm of the source is
dead (every table entry is a class, hence truthy), and `getattr(..., "decode")`
always finds the bound decode method. -/
def TLV.decode (code len : Nat) (value : List Nat) : Except PyError DecodedTlv :=
  match TLV.init code len value with
  | .error e => .error e
  | .ok _ =>
    match TYPE_CODES code with
    | none => TLVNotImplemented.decode code len value
    | some d => d code len value

/-- Header split in the sequencer loop of `server.py`: a big-endian 16-bit
read of two bytes, type code in the upper 7 bits (`>> 9`), length in the
lower 9 bits (`& 0x1FF`); total, with no failure mode. -/
def decode_header (b0 b1 : Nat) : Nat × Nat :=
  let v := (b0 % 256) * 256 + b1 % 256
  (v >>> 9, v &&& 0x1FF)

/-- Modelled from the spec: the repository is receive-only and contains no
header encoder; section 8 of the spec specifies the codec round-trip
`decode_header(encode_header(t, l)) == (t, l)` together with the header
layout (type code in the upper 7 bits, length in the lower 9 bits of a
big-endian 16-bit value), so `encode_header` packs `t * 2^9 + l` into two
big-endian bytes. -/
def encode_header (t l : Nat) : Nat × Nat :=
  let v := t * 512 + l
  (v / 256 % 256, v % 256)

/-- Loop of `LLDP.decode` in `server.py` walking the LLDP payload: read a
2-byte header, slice the declared number of value bytes, decode the TLV,
drop past it. The fuel argument makes the recursion structural; it starts at
the buffer length and every iteration removes at least the two header bytes,
so the zero-fuel arm is never reached from `lldpSequence`. A buffer of
exactly 1 byte makes `unpack("!H", ...)` fail with a struct error; a
declared length larger than the remaining buffer is NOT detected, the value
slice silently truncates and the loop then terminates. -/
def lldpSequenceAux : Nat → List Nat → Except PyError (List (TlvRec × DecodedTlv))
  | _, [] => .ok []
  | 0, _ :: _ => .error .structError
  | _ + 1, [_] => .error .structError
  | fuel + 1, b0 :: b1 :: rest =>
    let (code, len) := decode_header b0 b1
    let data := rest.take len
    match TLV.decode code len data with
    | .error e => .error e
    | .ok d =>
      match lldpSequenceAux fuel (rest.drop len) with
      | .error e => .error e
      | .ok tl => .ok (⟨⟨code, len, data⟩, d⟩ :: tl)

/-- TLV sequencer over one LLDP payload. -/
def lldpSequence (payload : List Nat) : Except PyError (List (TlvRec × DecodedTlv)) :=
  lldpSequenceAux payload.length payload

/-- Outcome of the frame-level decode: either the silent return taken when
the frame is not LLDP (the decoded data stays empty), or the sequence of
decoded TLVs. -/
inductive FrameOutcome where
  | notLldp
  | lldp (tlvs : List (TlvRec × DecodedTlv))
  deriving DecidableEq, Repr

/-- Frame-level `LLDP.decode` of `server.py`. A frame whose bytes 12..14 are
not the LLDP EtherType, or whose first six bytes are not the LLDP multicast
address, is silently skipped (the method just returns). A frame shorter than
14 bytes always takes the silent EtherType return, because a slice of fewer
than two bytes can never equal the two EtherType bytes; no explicit length
check exists. The `struct.unpack("!6s6sH", data[:14])` is only reached with
at least 14 bytes present, so it cannot fail. The source prints each decoded
record (the append to `decoded_data` is commented out); the record sequence
is returned here. -/
def LLDP.decode (data : List Nat) : Except PyError FrameOutcome :=
  if pySlice data 12 14 ≠ [0x88, 0xCC] then .ok .notLldp
  else
    let dst := pySlice data 0 6
    if colonHex dst ≠ ("01:80:c2:00:00:0e") then .ok .notLldp
    else
      match lldpSequence (data.drop 14) with
      | .error e => .error e
      | .ok tlvs => .ok (.lldp tlvs)

/-- Sum of `2 + length` over a produced record sequence, the quantity the
sequencer invariant of the spec compares with the payload length. -/
def consumedLen (rs : List (TlvRec × DecodedTlv)) : Nat :=
  (rs.map (fun r => 2 + r.1.length)).sum

/-- C1: evaluation at the failing input. On the payload `12 07 AA` the header
declares length 7 with only one value byte remaining; the sequencer silently
truncates the value slice to one byte and succeeds, so the consumed total
2 + 7 = 9 differs from the payload length 3 and no truncation error is
surfaced; and on the payload `AA` (a single byte, not enough for a header) a
bare struct unpack error escapes instead of a structured truncation error. -/
theorem c1_sequencer_truncation_eval :
    lldpSequence [18, 7, 170] =
      .ok [(⟨9, 7, [170]⟩, .notImplemented 9 7 [170])] ∧
    consumedLen [(⟨9, 7, [170]⟩, .notImplemented 9 7 [170])] ≠
      ([18, 7, 170] : List Nat).length ∧
    lldpSequence [170] = .error .structError :=
  ⟨rfl, by decide, rfl⟩

/-- C2 counterexample: a 6-byte ChassisID value lies inside the declared
bounds 1..256, so the length validation passes; the decode then fails at the
fixed 7-byte `unpack("!B6s", ...)` with a struct size error, which is neither
of the two errors a length check in this code can produce (the constructor
bound check escapes as an AttributeError, the in-decode bound check as a
ValueError) — not the claimed invalid-length failure. -/
theorem c2_chassis_six_bytes_cex :
    ChassisID.decode 1 6 [4, 170, 187, 204, 221, 238] = .error .structError ∧
    PyError.structError ≠ PyError.attributeError ∧
    PyError.structError ≠ PyError.valueError :=
  ⟨rfl, by decide, by decide⟩

/-- C2 amended: a ChassisID value of exactly 7 bytes decodes successfully;
a value of 6 bytes fails, but with a struct unpack size error rather than
the length validation, because every value length within the declared
bounds 1..256 passes the length validation (no length-check error can be
produced for such values). -/
theorem c2_chassis_boundary_amended :
    (ChassisID.decode 1 7 [4, 170, 187, 204, 221, 238, 255]).isOk = true ∧
    ChassisID.decode 1 6 [4, 170, 187, 204, 221, 238] = .error .structError ∧
    ∀ code len v, 1 ≤ v.length → v.length ≤ 256 →
      ChassisID.decode code len v ≠ .error .attributeError ∧
      ChassisID.decode code len v ≠ .error .valueError := by
  refine ⟨rfl, rfl, ?_⟩
  intro code len v h1 h2
  have hc : ¬ (v.length < 1 ∨ v.length > 256) := by omega
  constructor <;>
    · simp only [ChassisID.decode, TLV.validate_length, if_neg hc]
      split
      · split <;> simp
      · simp

/-- C2 witness: the amended theorem applied to the 6-byte value. -/
theorem c2_chassis_boundary_amended_witness :
    ChassisID.decode 1 6 [4, 170, 187, 204, 221, 238] ≠ .error .attributeError :=
  (c2_chassis_boundary_amended.2.2 1 6 [4, 170, 187, 204, 221, 238]
    (by decide) (by decide)).1

/-- C3: the header codec extracts the type code as the 16-bit value shifted
right by 9 and the length as the value masked with 0x1FF, with no failure
mode; decoding round-trips with the spec-modelled encoder for every type
code up to 127 and length up to 511, and the byte pair `02 07` decodes to
type code 1, length 7. -/
theorem c3_header_codec_roundtrip :
    (∀ t l, t ≤ 127 → l ≤ 511 →
      decode_header (encode_header t l).1 (encode_header t l).2 = (t, l)) ∧
    decode_header 2 7 = (1, 7) := by
  constructor
  · intro t l ht hl
    have e1 : ∀ v : Nat, v >>> 9 = v / 512 := by
      intro v
      rw [Nat.shiftRight_eq_div_pow]
    have e2 : ∀ v : Nat, v &&& 511 = v % 512 := by
      intro v
      have h := Nat.and_pow_two_sub_one_eq_mod v 9
      norm_num at h
      exact h
    simp only [decode_header, encode_header, e1, e2, Prod.mk.injEq]
    omega
  · decide

/-- C3 witness: the round-trip instantiated at type code 1, length 7. -/
theorem c3_header_codec_roundtrip_witness :
    decode_header (encode_header 1 7).1 (encode_header 1 7).2 = (1, 7) :=
  c3_header_codec_roundtrip.1 1 7 (by decide) (by decide)

/-- C4: evaluation at the failing input. A 13-byte frame (thirteen zero
bytes) is shorter than the 14-byte Ethernet header, yet `LLDP.decode`
returns silently through the EtherType-mismatch branch — the same silent
outcome as for a non-LLDP frame — instead of failing with a truncation
error. -/
theorem c4_short_frame_eval :
    LLDP.decode (List.replicate 13 0) = .ok .notLldp := rfl

/-- C5: evaluation at the failing input and the documented scenario. The
ChassisID value `08 AA BB CC DD EE FF` has subtype 8, outside the table;
the reserved branch immediately indexes the table it just found the subtype
absent from and raises a KeyError instead of producing the Reserved label.
The subtype-4 scenario does hold: `04 AA BB CC DD EE FF` decodes to the MAC
address label with the colon-separated hex of the six trailing bytes. -/
theorem c5_chassis_reserved_subtype_eval :
    ChassisID.decode 1 7 [8, 170, 187, 204, 221, 238, 255] = .error .keyError ∧
    ChassisID.decode 1 7 [4, 170, 187, 204, 221, 238, 255] =
      .ok (.chassisId ("MAC address") ("aa:bb:cc:dd:ee:ff")) :=
  ⟨rfl, rfl⟩

/-- Evaluation of the ManagementAddress decoder on the family of 9-byte
values with address-string length 2, an address subtype other than IPv4 and
IPv6, one address byte, interface subtype 0, four interface-number bytes and
one OID length byte: the reserved-subtype ValueError fires exactly when the
signed 32-bit interface number is strictly positive; otherwise the record is
returned when the OID length byte is zero, and the truncated OID slice makes
the final unpack fail when it is not. -/
theorem mgmt_family_eval (sa a m b1 b2 b3 b4 : Nat)
    (hsa : sa < 256) (h1 : sa ≠ 1) (h2 : sa ≠ 2) :
    ManagementAddress.decode 8 9 [2, sa, a, 0, b1, b2, b3, b4, m] =
      if 0 < signed32 (be32 b1 b2 b3 b4) then .error .valueError
      else if m % 256 = 0 then
        .ok (.managementAddress
          ⟨2, sa, .raw [a], ("Reserved"), signed32 (be32 b1 b2 b3 b4), 0, none⟩)
      else .error .structError := by
  simp only [ManagementAddress.decode, TLV.validate_length, pySlice, ifaceSubtypeLabel,
    List.length_cons, List.length_nil, List.headD_cons, List.drop_succ_cons, List.drop_zero,
    List.take_succ_cons, List.take_zero, List.tail_cons, Nat.mod_eq_of_lt hsa, h1, h2]
  norm_num
  split_ifs with hp hm hm2
  · rfl
  · simp [hm]
  · omega
  · rfl

/-- C6 counterexample: a length-valid ManagementAddress value with interface
subtype 0 and the nonzero 4-byte interface-number field `80 00 00 00`
decodes successfully — the signed 32-bit read makes the field negative, the
reserved-subtype validation does not trigger, and no invalid-field error is
raised, refuting the claim for this input. -/
theorem c6_mgmt_reserved_nonzero_cex :
    ManagementAddress.decode 8 9 [2, 3, 171, 0, 128, 0, 0, 0, 0] =
      .ok (.managementAddress
        ⟨2, 3, .raw [171], ("Reserved"), -2147483648, 0, none⟩) ∧
    ([128, 0, 0, 0] : List Nat) ≠ [0, 0, 0, 0] :=
  ⟨rfl, by decide⟩

/-- C6 amended: over length-valid ManagementAddress values with interface
subtype byte 0 (stated on the 9-byte family with address-string length 2 and
a non-IP address subtype), decoding fails with the invalid-field ValueError
— an error distinct from the length errors — exactly when the SIGNED 32-bit
interpretation of the 4-byte interface number is strictly positive; nonzero
fields with the sign bit set are accepted. -/
theorem c6_mgmt_reserved_amended :
    ∀ sa a m b1 b2 b3 b4 : Nat, sa < 256 → sa ≠ 1 → sa ≠ 2 →
      (ManagementAddress.decode 8 9 [2, sa, a, 0, b1, b2, b3, b4, m] =
          .error .valueError ↔
        0 < signed32 (be32 b1 b2 b3 b4)) := by
  intro sa a m b1 b2 b3 b4 hsa h1 h2
  rw [mgmt_family_eval sa a m b1 b2 b3 b4 hsa h1 h2]
  split_ifs with hp hm <;> simp [hp]

/-- C6 witness: the amended theorem applied at interface number 1. -/
theorem c6_mgmt_reserved_amended_witness :
    ManagementAddress.decode 8 9 [2, 3, 171, 0, 0, 0, 0, 1, 0] =
      .error .valueError :=
  (c6_mgmt_reserved_amended 3 171 0 0 0 0 1 (by decide) (by decide)
    (by decide)).mpr (by decide)

/-- C7: evaluation at the documented scenario and at the failing input. The
value `00 14 00 04` decodes to booleans with Bridge and Router set in the
system bitmap and Bridge in the enabled bitmap; but the value `01 00 01 00`
(both bitmaps 0x0100) makes both reversed digit strings nine characters
long, the loop reaches bit index 8, and the capability-table lookup raises a
KeyError instead of mapping only the low 8 bits. -/
theorem c7_syscap_eval :
    SystemCapabilities.decode 7 4 [0, 20, 0, 4] =
      .ok (.systemCapabilities
        [(("Other"), false), (("Repeater"), false), (("Bridge"), true),
         (("WLAN access point"), false), (("Router"), true), (("Telephone"), false),
         (("DOCSIS cable device"), false), (("Station only"), false)]
        [(("Other"), false), (("Repeater"), false), (("Bridge"), true),
         (("WLAN access point"), false), (("Router"), false), (("Telephone"), false),
         (("DOCSIS cable device"), false), (("Station only"), false)]) ∧
    SystemCapabilities.decode 7 4 [1, 0, 1, 0] = .error .keyError :=
  ⟨rfl, rfl⟩

/-- C8: a type code absent from the registry table (including the reserved
codes 9..126) routes to the fallback decoder, which never fails on a
well-formed record (value of at most 511 bytes) and returns the raw type
code, declared length and raw bytes verbatim — such a record never aborts
the decode. -/
theorem c8_fallback_dispatch :
    ∀ code len value, code ∉ ([0, 1, 2, 3, 4, 5, 6, 7, 8, 127] : List Nat) →
      value.length ≤ 511 →
      TLV.decode code len value = .ok (.notImplemented code len value) := by
  intro code len value hmem hlen
  have hn : ¬ (value.length < 0 ∨ value.length > 511) := by omega
  have hn2 : ¬ (511 < value.length) := by omega
  simp only [List.mem_cons, List.not_mem_nil, or_false, not_or] at hmem
  obtain ⟨h0, h1, h2, h3, h4, h5, h6, h7, h8, h127⟩ := hmem
  simp [TLV.decode, TLV.init, TLV.validate_length, TYPE_CODES,
    TLVNotImplemented.decode, h0, h1, h2, h3, h4, h5, h6, h7, h8, h127, hn, hn2]

/-- C8 witness: the reserved code 9 dispatches to the fallback. -/
theorem c8_fallback_dispatch_witness :
    TLV.decode 9 7 [170] = .ok (.notImplemented 9 7 [170]) :=
  c8_fallback_dispatch 9 7 [170] (by decide) (by decide)

/-- C9: the 4-byte interface number is unpacked as a SIGNED big-endian
32-bit integer: whenever the most significant bit of the field is set the
decoded value is negative, and a subtype-0 record carrying such a field
passes the reserved-subtype validation (which only fires on strictly
positive values) and is accepted, with the negative value reported in the
result. -/
theorem c9_signed_interface_number :
    ∀ b1 b2 b3 b4 : Nat, b1 < 256 → b2 < 256 → b3 < 256 → b4 < 256 →
      128 ≤ b1 →
      signed32 (be32 b1 b2 b3 b4) < 0 ∧
      ManagementAddress.decode 8 9 [2, 3, 171, 0, b1, b2, b3, b4, 0] =
        .ok (.managementAddress
          ⟨2, 3, .raw [171], ("Reserved"),
            signed32 (be32 b1 b2 b3 b4), 0, none⟩) := by
  intro b1 b2 b3 b4 hb1 hb2 hb3 hb4 hmsb
  have hneg : signed32 (be32 b1 b2 b3 b4) < 0 := by
    simp only [signed32, be32, Nat.mod_eq_of_lt hb1, Nat.mod_eq_of_lt hb2,
      Nat.mod_eq_of_lt hb3, Nat.mod_eq_of_lt hb4]
    split_ifs with h
    · omega
    · omega
  refine ⟨hneg, ?_⟩
  rw [mgmt_family_eval 3 171 0 b1 b2 b3 b4 (by norm_num) (by norm_num)
    (by norm_num)]
  rw [if_neg (by omega), if_pos (by norm_num)]

/-- C9 witness: the theorem applied at the field `80 00 00 00`. -/
theorem c9_signed_interface_number_witness :
    signed32 (be32 128 0 0 0) < 0 ∧
    ManagementAddress.decode 8 9 [2, 3, 171, 0, 128, 0, 0, 0, 0] =
      .ok (.managementAddress
        ⟨2, 3, .raw [171], ("Reserved"), signed32 (be32 128 0 0 0), 0, none⟩) :=
  c9_signed_interface_number 128 0 0 0 (by decide) (by decide) (by decide)
    (by decide) (by decide)

/-- C10: TLV record construction succeeds exactly when the value holds at
most 511 bytes (the lower bound 0 holds vacuously), for EVERY declared
length — the declared length is never compared with the actual byte count —
with the declared length and the value stored verbatim; and a record with a
mismatched declared length flows verbatim into the decoded output of the
fallback decoder. -/
theorem c10_construction_length :
    ∀ t l v, ((∃ r : TlvRec, TLV.init t l v = .ok r ∧ r.length = l ∧ r.value = v) ↔
        (0 ≤ v.length ∧ v.length ≤ 511)) ∧
      (v.length ≤ 511 →
        TLVNotImplemented.decode t l v = .ok (.notImplemented t l v)) := by
  intro t l v
  constructor
  · constructor
    · rintro ⟨r, hr, -, -⟩
      refine ⟨Nat.zero_le _, ?_⟩
      by_contra h
      simp only [TLV.init, TLV.validate_length] at hr
      rw [if_pos (show v.length < 0 ∨ v.length > 511 by omega)] at hr
      simp at hr
    · rintro ⟨-, h⟩
      refine ⟨⟨t, l, v⟩, ?_, rfl, rfl⟩
      simp only [TLV.init, TLV.validate_length]
      rw [if_neg (show ¬ (v.length < 0 ∨ v.length > 511) by omega)]
  · intro h
    simp only [TLVNotImplemented.decode, TLV.validate_length]
    rw [if_neg (show ¬ (v.length < 0 ∨ v.length > 511) by omega)]

/-- C10 witness: a record whose declared length 5 differs from its 3-byte
value is constructed and kept verbatim. -/
theorem c10_construction_length_witness :
    ∃ r : TlvRec, TLV.init 1 5 [1, 2, 3] = .ok r ∧ r.length = 5 ∧
      r.value = [1, 2, 3] :=
  ((c10_construction_length 1 5 [1, 2, 3]).1).mpr (by decide)
